import Mathlib

/-!
# Verification of the LMT playback scripts

Shallow embedding of the four Python scripts of the LMT repository:

* `play_sheet_on_virtual_organ.py` — FluidSynth playback loop,
* `play_sheet_on_organ.py`        — hardware MIDI playback loop,
* `convert_musicxml_to_midi.py`   — MusicXML → MIDI command-line tool,
* `download_lutheran_hymn_sheet_music.py` — IMSLP hymn scraper.

Time and durations are modelled as rationals (`ℚ`); Python floats in these
scripts only ever hold small dyadic/decimal values, so the arithmetic is
exact.  External collaborators (music21, mido, FluidSynth, requests) appear
only through the data the scripts extract from them.
-/

namespace LMT

/-- A flattened music21 score element, as consumed by both playback scripts:
a Note (one MIDI pitch, optional velocity from `volume.velocity`, a
`duration.quarterLength`), a Chord (list of MIDI pitches), or a Rest. -/
inductive M21Element where
  | note  (pitch : ℕ) (velocity : Option ℕ) (quarterLength : ℚ)
  | chord (pitches : List ℕ) (velocity : Option ℕ) (quarterLength : ℚ)
  | rest  (quarterLength : ℚ)
deriving DecidableEq

/-- `el.duration.quarterLength` / `el.quarterLength` in music21. -/
def M21Element.quarterLength : M21Element → ℚ
  | .note _ _ d => d
  | .chord _ _ d => d
  | .rest d => d

/-- Membership test of `flat.getElementsByClass(['Note', 'Chord'])`:
true exactly on Notes and Chords, false on Rests. -/
def M21Element.isNoteOrChord : M21Element → Bool
  | .note _ _ _ => true
  | .chord _ _ _ => true
  | .rest _ => false

/-! ## play_sheet_on_virtual_organ.py -/

namespace VirtualOrgan

/-- Tempo selection (lines 49–54):
`bpm = TEMPO_BPM if TEMPO_BPM is not None else
 (score.metronomeMarkBoundaries[0].number if score.metronomeMarkBoundaries else 120)`.
`marks` is the list of BPM numbers the script would read from
`metronomeMarkBoundaries`, in order. -/
def resolve_bpm (tempo_bpm : Option ℚ) (marks : List ℚ) : ℚ :=
  match tempo_bpm with
  | some b => b
  | none =>
    match marks with
    | m :: _ => m
    | [] => 120

/-- Line 104: `seconds_per_quarter = 60.0 / bpm`. -/
def seconds_per_quarter (bpm : ℚ) : ℚ := 60 / bpm

/-- One FluidSynth backend call of the playback loop, stamped with the
wall-clock instant (seconds since playback start) at which it is issued. -/
inductive FSCall where
  | noteon  (chan pitch vel : ℕ) (t : ℚ)
  | noteoff (chan pitch : ℕ) (t : ℚ)
deriving DecidableEq

def FSCall.isOn : FSCall → Bool
  | .noteon _ _ _ _ => true
  | .noteoff _ _ _ => false

def FSCall.time : FSCall → ℚ
  | .noteon _ _ _ t => t
  | .noteoff _ _ t => t

def FSCall.pitch : FSCall → ℕ
  | .noteon _ p _ _ => p
  | .noteoff _ p _ => p

/-- `play_element(el, time_offset)` (lines 62–90), run at wall-clock time
`wall`.  It first does `time.sleep(time_offset)`; a Note then fires
`fs.noteon(0, pitch, 127)`, sleeps `duration * (60.0 / bpm)` and fires
`fs.noteoff(0, pitch)`; a Chord does the same once per element of
`el.pitches`; any other element (a Rest would be one, though the caller
filters them out) falls through both `isinstance` checks and does nothing
more.  Returns the calls issued (time-stamped) and the new wall-clock time;
only the sleeps advance the wall clock. -/
def play_element (bpm : ℚ) (el : M21Element) (time_offset wall : ℚ) :
    List FSCall × ℚ :=
  let w := wall + time_offset
  match el with
  | .note p _ d =>
      ([.noteon 0 p 127 w, .noteoff 0 p (w + d * (60 / bpm))],
       w + d * (60 / bpm))
  | .chord ps _ d =>
      (ps.map (fun p => FSCall.noteon 0 p 127 w) ++
       ps.map (fun p => FSCall.noteoff 0 p (w + d * (60 / bpm))),
       w + d * (60 / bpm))
  | .rest _ => ([], w)

/-- The dispatch loop body (lines 109–116) over an already-filtered element
list: for each element, `play_element(el, current_offset)` then
`current_offset += duration_q * seconds_per_quarter`.  State is
`(wall, current_offset)`; returns the full backend-call trace, the final
wall-clock time (= total seconds slept, starting from `wall`) and the final
`current_offset`. -/
def organ_loop (bpm : ℚ) : List M21Element → ℚ → ℚ → List FSCall × ℚ × ℚ
  | [], wall, off => ([], wall, off)
  | el :: rest, wall, off =>
      let r := play_element bpm el off wall
      let s := organ_loop bpm rest r.2 (off + el.quarterLength * seconds_per_quarter bpm)
      (r.1 ++ s.1, s.2)

/-- The whole playback pass (lines 96–116): filter the flattened score to
Notes and Chords — `for el in flat.getElementsByClass(['Note', 'Chord'])`,
rests are dropped here — and run the loop from wall time 0 and
`current_offset = 0.0`. -/
def virtual_playback (bpm : ℚ) (flat : List M21Element) : List FSCall × ℚ × ℚ :=
  organ_loop bpm (flat.filter M21Element.isNoteOrChord) 0 0

/-- The value of `current_offset` after the loop has consumed the first `n`
elements of the flattened score (rests among them are skipped by the
`getElementsByClass` filter, so they are consumed without any effect). -/
def clock_after (bpm : ℚ) (flat : List M21Element) (n : ℕ) : ℚ :=
  (virtual_playback bpm (flat.take n)).2.2

/-! ### Failure-injected backend

The scripts give the backend no error handling: an exception from
`fs.noteon` / `fs.noteoff` propagates out of `play_element` and kills the
loop.  We model an injected failure by a predicate `fail` on the global
backend-call index: call number `k` raises iff `fail k`.  A raising call
does not sound its note; every call issued before it already did. -/

/-- Issue a run of backend calls (`true` = note-on, `false` = note-off) in
order against a failing backend.  State: next call index `k`, counts of
note-ons and note-offs successfully issued.  An exception surfaces as
`.error` carrying the counts at the moment of the raise. -/
def issue_calls (fail : ℕ → Bool) :
    List Bool → ℕ → ℕ → ℕ → Except (ℕ × ℕ) (ℕ × ℕ × ℕ)
  | [], k, ons, offs => .ok (k, ons, offs)
  | b :: rest, k, ons, offs =>
      if fail k then .error (ons, offs)
      else issue_calls fail rest (k + 1)
        (if b then ons + 1 else ons) (if b then offs else offs + 1)

/-- The backend-call pattern of `play_element` on one element: a Note is
`noteon; noteoff`, a Chord is all its noteons then all its noteoffs, a Rest
issues nothing. -/
def call_pattern : M21Element → List Bool
  | .note _ _ _ => [true, false]
  | .chord ps _ _ => ps.map (fun _ => true) ++ ps.map (fun _ => false)
  | .rest _ => []

/-- The playback loop against a failing backend, counting calls only: runs
`issue_calls` on each filtered element's pattern in turn; the first raise
aborts the whole loop (there is no handler anywhere in the script), leaving
the note-on/note-off counts as they stood. -/
def playback_counts (fail : ℕ → Bool) : List M21Element → ℕ → ℕ → ℕ →
    Except (ℕ × ℕ) (ℕ × ℕ)
  | [], _, ons, offs => .ok (ons, offs)
  | el :: rest, k, ons, offs =>
      match issue_calls fail (call_pattern el) k ons offs with
      | .error e => .error e
      | .ok s => playback_counts fail rest s.1 s.2.1 s.2.2

/-- Entry point of the counting model over the flattened score. -/
def playback_f (fail : ℕ → Bool) (flat : List M21Element) :
    Except (ℕ × ℕ) (ℕ × ℕ) :=
  playback_counts fail (flat.filter M21Element.isNoteOrChord) 0 0 0

end VirtualOrgan

/-! ## play_sheet_on_organ.py -/

namespace HardwareOrgan

/-- Line 18: `ORGAN_CHANNEL = 1` (MIDI channel 1–16). -/
def ORGAN_CHANNEL : ℕ := 1

/-- Line 20: `TIME_RESOLUTION = 0.05  # seconds per quarter-note`. -/
def TIME_RESOLUTION : ℚ := 1/20

/-- A `mido.Message` as the script builds it.  `note` is an integer, not a
byte: the script writes `midi_pitch += ORGAN_KEY_OFFSET` with no range
check, so the field can leave `[0, 127]` (validation, if any, would happen
inside the external mido library, not in this script). -/
structure MidoMsg where
  is_note_on : Bool
  note : ℤ
  velocity : ℕ
  channel : ℕ
  time : ℚ
deriving DecidableEq

/-- Line 81: `velocity = int(m21_note.volume.velocity) if
m21_note.volume.velocity else 64` — Python truthiness, so both `None` and
an explicit `0` fall back to 64. -/
def resolve_velocity (vel : Option ℕ) : ℕ :=
  match vel with
  | some v => if v ≠ 0 then v else 64
  | none => 64

/-- `sorted(m21_note.pitches, key=lambda p: p.midi)[-1].midi`: the highest
pitch of the chord (music21 chords are non-empty; on `[]` the fold's base
`0` stands in for Python's IndexError). -/
def highest_pitch (ps : List ℕ) : ℕ := ps.foldl max 0

/-- `note_to_midi_events(m21_note, start_tick)` (lines 54–91), with the
config constant `ORGAN_KEY_OFFSET` passed explicitly.  A Rest returns no
events and its quarterLength; a Chord plays only its highest pitch; the key
offset is added to the pitch unconditionally; the note_off carries
`time = duration * 1000` (ms).  The function is total: no pitch-range or
duration check exists in the script and no TranslationError is defined. -/
def note_to_midi_events (organ_key_offset : ℤ) (el : M21Element)
    (start_tick : ℚ) : List MidoMsg × ℚ :=
  let chan := ORGAN_CHANNEL - 1
  match el with
  | .rest d => ([], d)
  | .note p vel d =>
      let midi_pitch : ℤ := (p : ℤ) + organ_key_offset
      ([⟨true, midi_pitch, resolve_velocity vel, chan, start_tick⟩,
        ⟨false, midi_pitch, 0, chan, d * 1000⟩], d)
  | .chord ps vel d =>
      let midi_pitch : ℤ := (highest_pitch ps : ℤ) + organ_key_offset
      ([⟨true, midi_pitch, resolve_velocity vel, chan, start_tick⟩,
        ⟨false, midi_pitch, 0, chan, d * 1000⟩], d)

/-- The main playback loop (lines 107–121): for each flattened element,
`events, dur = note_to_midi_events(m21_obj, 0)`; if `events` is empty (a
rest) it sleeps `dur * TIME_RESOLUTION`; otherwise it sends each message
and sleeps `msg.time / 1000.0` after it.  Returns the messages sent and the
total seconds slept. -/
def hw_loop (organ_key_offset : ℤ) : List M21Element → List MidoMsg × ℚ
  | [] => ([], 0)
  | el :: rest =>
      let r := note_to_midi_events organ_key_offset el 0
      let s := hw_loop organ_key_offset rest
      if r.1.isEmpty then
        (s.1, r.2 * TIME_RESOLUTION + s.2)
      else
        (r.1 ++ s.1, (r.1.map (fun m => m.time / 1000)).sum + s.2)

/-- Tempo reading of the hardware script (lines 97–102):
`ms_per_quarter = 60000 / 120`, overwritten by `60000 / bpm` with the first
metronome mark when the score has one.  (The loop above never reads this
value — the note_off sleep uses `duration * 1000` ms directly.) -/
def ms_per_quarter (marks : List ℚ) : ℚ :=
  match marks with
  | m :: _ => 60000 / m
  | [] => 60000 / 120

end HardwareOrgan

/-! ## convert_musicxml_to_midi.py -/

namespace Converter

/-- Outcome of `main()`'s overwrite gate (lines 89–95): `aborted` is the
`sys.exit(0)` on a non-"y" answer; `eof_crash` is the uncaught `EOFError`
that `input()` raises when no interactive input is available (it
propagates out of `main`, so conversion never runs); `proceeded` means
control reaches `musicxml_to_midi`, which writes the output file. -/
inductive ConvertOutcome where
  | aborted
  | eof_crash
  | proceeded
deriving DecidableEq

/-- Python's `str.lower()` as applied to the confirmation line: per-character
lower-casing (answers are ASCII). -/
def py_lower (s : String) : String := ⟨s.data.map Char.toLower⟩

/-- The overwrite gate of `main()`:
`if args.output_midi.exists(): confirm = input(...).lower();
 if confirm != "y": print("Aborted."); sys.exit(0)`.
`stdin_line` is the line `input()` returns, `none` when stdin is at EOF
(then `input()` raises `EOFError`). -/
def overwrite_gate (output_exists : Bool) (stdin_line : Option String) :
    ConvertOutcome :=
  if output_exists then
    match stdin_line with
    | none => .eof_crash
    | some s => if py_lower s ≠ "y" then .aborted else .proceeded
  else .proceeded

end Converter

/-! ## download_lutheran_hymn_sheet_music.py -/

namespace Scraper

/-- Line 43: `MIN_DELAY = 1.5`. -/
def MIN_DELAY : ℚ := 3/2

/-- `safe_sleep(previous_time)` (lines 64–68) run at wall time `now`:
`elapsed = time.time() - previous_time; if elapsed < MIN_DELAY:
 time.sleep(MIN_DELAY - elapsed)`.  Returns the wall time afterwards. -/
def safe_sleep (previous_time now : ℚ) : ℚ :=
  if now - previous_time < MIN_DELAY then now + (MIN_DELAY - (now - previous_time))
  else now

/-- What one iteration of `main()`'s hymn loop does, abstracted to timing:
`pageDur` is the wall time consumed by the score-page GET plus the
HTML parsing; `hasPdf` says whether that fetch succeeded and a PDF link was
found (both failure branches `continue`); `pdfDur` the wall time of the PDF
download when it happens. -/
structure HymnStep where
  pageDur : ℚ
  hasPdf : Bool
  pdfDur : ℚ

/-- The hymn loop (lines 117–147) as a timed trace of HTTP request starts.
Per iteration: `safe_sleep(last_request_time)`, then
`last_request_time = time.time()`, then the page GET starts immediately;
when a PDF link is found the PDF GET starts right away — no further
`safe_sleep` stands between the two requests.  Each emitted pair is
`(is_page_fetch, start_time)` in issue order. -/
def hymn_loop : List HymnStep → ℚ → ℚ → List (Bool × ℚ)
  | [], _, _ => []
  | s :: rest, now, last =>
      let n1 := safe_sleep last now
      let n2 := n1 + s.pageDur
      if s.hasPdf then
        (true, n1) :: (false, n2) :: hymn_loop rest (n2 + s.pdfDur) n1
      else
        (true, n1) :: hymn_loop rest n2 n1

/-- `main()` (lines 112–119): the loop starts at some wall time `t0` with
`last_request_time = time.time() - MIN_DELAY`, "so first request goes
straight through". -/
def scraper_requests (t0 : ℚ) (steps : List HymnStep) : List (Bool × ℚ) :=
  hymn_loop steps t0 (t0 - MIN_DELAY)

/-- Projection of a request trace to the start times of the score-page
fetches alone, in order. -/
def page_starts_of (l : List (Bool × ℚ)) : List ℚ :=
  l.filterMap (fun r => if r.1 then some r.2 else none)

/-- The start times of the score-page fetches of a run, in order. -/
def page_starts (t0 : ℚ) (steps : List HymnStep) : List ℚ :=
  page_starts_of (scraper_requests t0 steps)

end Scraper

/-! ## Spec-side definitions used for refinement comparisons -/

/-- The BPM precedence exactly as the spec words it: "explicit override >
first tempo marking found in the score > default 120 BPM".  Stated from
the spec, to be compared with `VirtualOrgan.resolve_bpm` from the source. -/
def spec_bpm (override : Option ℚ) (marks : List ℚ) : ℚ :=
  override.getD (marks.headD 120)

/-! ## Claims -/

/-- C2: with no explicit BPM override and no tempo marking the resolved
seconds-per-quarter-note equals 0.5; with an override of 60 BPM it equals
1.0 regardless of score content; in general it equals 60 / BPM where BPM is
chosen with precedence override, then first score tempo marking, then the
default 120. -/
theorem c2_tempo_resolution (ov : Option ℚ) (marks : List ℚ) :
    VirtualOrgan.seconds_per_quarter (VirtualOrgan.resolve_bpm none []) = 1/2
    ∧ VirtualOrgan.seconds_per_quarter (VirtualOrgan.resolve_bpm (some 60) marks) = 1
    ∧ VirtualOrgan.seconds_per_quarter (VirtualOrgan.resolve_bpm ov marks)
        = 60 / spec_bpm ov marks := by
  refine ⟨by norm_num [VirtualOrgan.seconds_per_quarter, VirtualOrgan.resolve_bpm],
    by norm_num [VirtualOrgan.seconds_per_quarter, VirtualOrgan.resolve_bpm], ?_⟩
  cases ov with
  | some b => rfl
  | none =>
    cases marks with
    | nil => rfl
    | cons m ms => rfl

/-- C10: in the hardware-organ translator, a Note with explicit velocity 0
is sent with the default velocity 64, not 0; an explicit non-zero velocity
is honoured and an absent velocity also falls back to 64 (only a truthy
value is honoured). -/
theorem c10_zero_velocity_defaulted (p : ℕ) (off : ℤ) (d start : ℚ) (v : ℕ) :
    ((HardwareOrgan.note_to_midi_events off (.note p (some 0) d) start).1.map
        HardwareOrgan.MidoMsg.velocity) = [64, 0]
    ∧ ((HardwareOrgan.note_to_midi_events off (.note p (some v) d) start).1.map
        HardwareOrgan.MidoMsg.velocity) = [if v = 0 then 64 else v, 0]
    ∧ ((HardwareOrgan.note_to_midi_events off (.note p none d) start).1.map
        HardwareOrgan.MidoMsg.velocity) = [64, 0] := by
  refine ⟨rfl, ?_, rfl⟩
  by_cases hv : v = 0
  · subst hv; rfl
  · simp [HardwareOrgan.note_to_midi_events, HardwareOrgan.resolve_velocity, hv]

/-- C5 counterexample: the translator is a total function with no pitch or
duration validation.  A Note of pitch 125 under key-offset +5 translates to
messages carrying pitch 130 — outside [0,127] — with no error of any kind,
and a Note of negative duration −1 also translates normally; no
`TranslationError` exists in the script. -/
theorem c5_no_translation_error_counterexample :
    HardwareOrgan.note_to_midi_events 5 (.note 125 none 1) 0
      = ([⟨true, 130, 64, 0, 0⟩, ⟨false, 130, 0, 0, 1000⟩], 1)
    ∧ ¬ ((130 : ℤ) ≤ 127)
    ∧ HardwareOrgan.note_to_midi_events 0 (.note 60 none (-1)) 0
      = ([⟨true, 60, 64, 0, 0⟩, ⟨false, 60, 0, 0, -1000⟩], -1) := by
  refine ⟨?_, by decide, ?_⟩ <;>
    norm_num [HardwareOrgan.note_to_midi_events, HardwareOrgan.resolve_velocity,
      HardwareOrgan.ORGAN_CHANNEL]

/-- C5 amended: the translated pitch always equals the base MIDI pitch plus
the configured key-offset (60 with offset +5 gives 65), and translation
never fails: the translator performs no [0,127] range check and no
negative-duration check, passing every input through unchecked. -/
theorem c5_key_offset_applied (p : ℕ) (off : ℤ) (v : Option ℕ) (d start : ℚ) :
    ((HardwareOrgan.note_to_midi_events off (.note p v d) start).1.map
        HardwareOrgan.MidoMsg.note) = [(p : ℤ) + off, (p : ℤ) + off]
    ∧ (HardwareOrgan.note_to_midi_events off (.note p v d) start).2 = d
    ∧ ((HardwareOrgan.note_to_midi_events 5 (.note 60 none 1) 0).1.map
        HardwareOrgan.MidoMsg.note) = [65, 65] :=
  ⟨rfl, rfl, by decide⟩

/-- C8: the converter's overwrite gate only reaches the writing stage over
an existing output file when `input()` returned a line whose lower-casing
is "y"; in particular with no interactive input available (`input()` hits
EOF and raises) it never proceeds, so it fails closed without
overwriting. -/
theorem c8_overwrite_requires_confirmation (stdin : Option String) :
    (Converter.overwrite_gate true stdin = .proceeded →
      ∃ s, stdin = some s ∧ Converter.py_lower s = "y")
    ∧ Converter.overwrite_gate true none ≠ .proceeded := by
  constructor
  · intro h
    cases stdin with
    | none => exact absurd h (by decide)
    | some s =>
      refine ⟨s, rfl, ?_⟩
      by_cases hs : Converter.py_lower s = "y"
      · exact hs
      · have hg : Converter.overwrite_gate true (some s) = .aborted := by
          simp [Converter.overwrite_gate, hs]
        rw [hg] at h
        exact absurd h (by decide)
  · decide

/-- C8 witness: with an existing output file and the answer "y" on stdin the
gate proceeds, and the theorem then produces the confirming line. -/
theorem c8_overwrite_requires_confirmation_witness :
    ∃ s, (some "y" : Option String) = some s ∧ Converter.py_lower s = "y" :=
  (c8_overwrite_requires_confirmation (some "y")).1 (by decide)

/-- C1: with a backend that raises on the second call — the note-on of the
second chord pitch — the loop dies with 1 note-on issued and 0 note-offs:
the script has no cleanup handler, so the first pitch is left sounding,
against the spec's panic/cleanup discipline.  With a never-failing backend
the same input issues 2 note-ons and 2 note-offs. -/
theorem c1_chord_failure_leaves_pitch_sounding :
    VirtualOrgan.playback_f (fun k => k == 1) [.chord [64, 67] none 1]
      = .error (1, 0)
    ∧ (1 : ℕ) ≠ 0
    ∧ VirtualOrgan.playback_f (fun _ => false) [.chord [64, 67] none 1]
      = .ok (2, 2) :=
  ⟨rfl, by decide, rfl⟩

/-- C3 counterexample: a Rest of 2.0 quarter-lengths at the default 120 BPM
(seconds-per-quarter 0.5) is dropped by the loop's `getElementsByClass`
filter: the run issues no calls, sleeps 0 seconds and leaves the clock at
0, not at the claimed 2.0 × 0.5 = 1.0. -/
theorem c3_rest_skipped_counterexample :
    VirtualOrgan.virtual_playback 120 [.rest 2] = ([], 0, 0)
    ∧ (0 : ℚ) ≠ 2 * VirtualOrgan.seconds_per_quarter 120 := by
  refine ⟨rfl, ?_⟩
  norm_num [VirtualOrgan.seconds_per_quarter]

/-- C3 amended: a Rest produces zero SoundActions in both scripts; the
virtual-organ scheduler skips rests entirely (no wait, clock advance 0),
and the hardware-organ loop waits `d * TIME_RESOLUTION` (a fixed 0.05 s per
quarter-length, independent of tempo) — neither advances by
`d × seconds-per-quarter`. -/
theorem c3_rest_handling (d : ℚ) (bpm : ℚ) (off : ℤ) :
    VirtualOrgan.virtual_playback bpm [.rest d] = ([], 0, 0)
    ∧ HardwareOrgan.note_to_midi_events off (.rest d) 0 = ([], d)
    ∧ HardwareOrgan.hw_loop off [.rest d]
        = ([], d * HardwareOrgan.TIME_RESOLUTION) := by
  refine ⟨rfl, rfl, ?_⟩
  show (([] : List HardwareOrgan.MidoMsg),
        d * HardwareOrgan.TIME_RESOLUTION + (0 : ℚ))
      = ([], d * HardwareOrgan.TIME_RESOLUTION)
  rw [add_zero]

/-- Helper: a filter that holds on every image of a map keeps the map. -/
theorem filter_map_of_true {α β : Type _} (p : α → Bool) (f : β → α)
    (hp : ∀ b, p (f b) = true) (l : List β) :
    (l.map f).filter p = l.map f := by
  induction l with
  | nil => rfl
  | cons b t ih => simp [List.filter_cons, hp, ih]

/-- Helper: a filter that fails on every image of a map empties it. -/
theorem filter_map_of_false {α β : Type _} (p : α → Bool) (f : β → α)
    (hp : ∀ b, p (f b) = false) (l : List β) :
    (l.map f).filter p = [] := by
  induction l with
  | nil => rfl
  | cons b t ih => simp [List.filter_cons, hp, ih]

/-- Helper: filtering a mapped list counts the preimages. -/
theorem length_filter_map {α β : Type _} (p : α → Bool) (f : β → α)
    (l : List β) :
    ((l.map f).filter p).length = (l.filter (fun b => p (f b))).length := by
  induction l with
  | nil => rfl
  | cons b t ih =>
    by_cases h : p (f b) = true
    · simp [List.filter_cons, h, ih]
    · simp only [Bool.not_eq_true] at h
      simp [List.filter_cons, h, ih]

/-- Helper: in a duplicate-free list a member is hit by the equality filter
exactly once. -/
theorem filter_beq_length_one {p : ℕ} {ps : List ℕ} (hnd : ps.Nodup)
    (hp : p ∈ ps) : (ps.filter (fun q => q == p)).length = 1 := by
  rw [← List.countP_eq_length_filter]
  exact List.count_eq_one_of_mem hnd hp

/-- C4: in all-voices chord mode (`play_element`'s Chord branch), a chord
with distinct pitches yields exactly one note-on per pitch, all at the
chord's start instant `wall + offset`, and exactly one note-off per pitch,
all at start + d × (60/bpm). -/
theorem c4_chord_all_voices (ps : List ℕ) (v : Option ℕ)
    (d bpm offset wall : ℚ) (hnd : ps.Nodup) :
    ((VirtualOrgan.play_element bpm (.chord ps v d) offset wall).1.filter
        VirtualOrgan.FSCall.isOn)
      = ps.map (fun p => VirtualOrgan.FSCall.noteon 0 p 127 (wall + offset))
    ∧ ((VirtualOrgan.play_element bpm (.chord ps v d) offset wall).1.filter
        (fun c => !c.isOn))
      = ps.map (fun p =>
          VirtualOrgan.FSCall.noteoff 0 p (wall + offset + d * (60 / bpm)))
    ∧ ((VirtualOrgan.play_element bpm (.chord ps v d) offset wall).1.filter
        VirtualOrgan.FSCall.isOn).length = ps.length
    ∧ ((VirtualOrgan.play_element bpm (.chord ps v d) offset wall).1.filter
        (fun c => !c.isOn)).length = ps.length
    ∧ ∀ p ∈ ps,
        ((VirtualOrgan.play_element bpm (.chord ps v d) offset wall).1.filter
          (fun c => c.isOn && c.pitch == p)).length = 1
        ∧ ((VirtualOrgan.play_element bpm (.chord ps v d) offset wall).1.filter
          (fun c => !c.isOn && c.pitch == p)).length = 1 := by
  have htrace : (VirtualOrgan.play_element bpm (.chord ps v d) offset wall).1
      = ps.map (fun p => VirtualOrgan.FSCall.noteon 0 p 127 (wall + offset))
        ++ ps.map (fun p =>
            VirtualOrgan.FSCall.noteoff 0 p (wall + offset + d * (60 / bpm))) := rfl
  rw [htrace]
  have hon : (ps.map (fun p => VirtualOrgan.FSCall.noteon 0 p 127 (wall + offset))
        ++ ps.map (fun p =>
            VirtualOrgan.FSCall.noteoff 0 p (wall + offset + d * (60 / bpm)))).filter
        VirtualOrgan.FSCall.isOn
      = ps.map (fun p => VirtualOrgan.FSCall.noteon 0 p 127 (wall + offset)) := by
    rw [List.filter_append,
      filter_map_of_true VirtualOrgan.FSCall.isOn
        (fun p => VirtualOrgan.FSCall.noteon 0 p 127 (wall + offset)) (fun b => rfl) ps,
      filter_map_of_false VirtualOrgan.FSCall.isOn
        (fun p => VirtualOrgan.FSCall.noteoff 0 p (wall + offset + d * (60 / bpm)))
        (fun b => rfl) ps,
      List.append_nil]
  have hoff : (ps.map (fun p => VirtualOrgan.FSCall.noteon 0 p 127 (wall + offset))
        ++ ps.map (fun p =>
            VirtualOrgan.FSCall.noteoff 0 p (wall + offset + d * (60 / bpm)))).filter
        (fun c => !c.isOn)
      = ps.map (fun p =>
          VirtualOrgan.FSCall.noteoff 0 p (wall + offset + d * (60 / bpm))) := by
    rw [List.filter_append,
      filter_map_of_false (fun c => !c.isOn)
        (fun p => VirtualOrgan.FSCall.noteon 0 p 127 (wall + offset)) (fun b => rfl) ps,
      filter_map_of_true (fun c => !c.isOn)
        (fun p => VirtualOrgan.FSCall.noteoff 0 p (wall + offset + d * (60 / bpm)))
        (fun b => rfl) ps,
      List.nil_append]
  refine ⟨hon, hoff, by rw [hon, List.length_map], by rw [hoff, List.length_map], ?_⟩
  intro p hp
  constructor
  · rw [List.filter_append, List.length_append,
      length_filter_map (fun c => c.isOn && c.pitch == p)
        (fun q => VirtualOrgan.FSCall.noteon 0 q 127 (wall + offset)) ps,
      length_filter_map (fun c => c.isOn && c.pitch == p)
        (fun q => VirtualOrgan.FSCall.noteoff 0 q (wall + offset + d * (60 / bpm))) ps]
    show (ps.filter (fun q => q == p)).length
        + (ps.filter (fun q => false)).length = 1
    rw [List.filter_false, List.length_nil, Nat.add_zero]
    exact filter_beq_length_one hnd hp
  · rw [List.filter_append, List.length_append,
      length_filter_map (fun c => !c.isOn && c.pitch == p)
        (fun q => VirtualOrgan.FSCall.noteon 0 q 127 (wall + offset)) ps,
      length_filter_map (fun c => !c.isOn && c.pitch == p)
        (fun q => VirtualOrgan.FSCall.noteoff 0 q (wall + offset + d * (60 / bpm))) ps]
    show (ps.filter (fun q => false)).length
        + (ps.filter (fun q => q == p)).length = 1
    rw [List.filter_false, List.length_nil, Nat.zero_add]
    exact filter_beq_length_one hnd hp

/-- C4 witness: the claim's concrete instance — a 3-pitch chord of duration
1.0 quarter-length at 120 BPM started at wall time 0 with no extra offset
gives 3 note-ons at 0.0 s and 3 note-offs at 1 × (60/120) s. -/
theorem c4_chord_all_voices_witness :
    ((VirtualOrgan.play_element 120 (.chord [60, 64, 67] none 1) 0 0).1.filter
        VirtualOrgan.FSCall.isOn)
      = [60, 64, 67].map (fun p => VirtualOrgan.FSCall.noteon 0 p 127 (0 + 0))
    ∧ ((VirtualOrgan.play_element 120 (.chord [60, 64, 67] none 1) 0 0).1.filter
        (fun c => !c.isOn))
      = [60, 64, 67].map (fun p =>
          VirtualOrgan.FSCall.noteoff 0 p (0 + 0 + 1 * (60 / 120)))
    ∧ ((VirtualOrgan.play_element 120 (.chord [60, 64, 67] none 1) 0 0).1.filter
        VirtualOrgan.FSCall.isOn).length = ([60, 64, 67] : List ℕ).length
    ∧ ((VirtualOrgan.play_element 120 (.chord [60, 64, 67] none 1) 0 0).1.filter
        (fun c => !c.isOn)).length = ([60, 64, 67] : List ℕ).length
    ∧ ∀ p ∈ ([60, 64, 67] : List ℕ),
        ((VirtualOrgan.play_element 120 (.chord [60, 64, 67] none 1) 0 0).1.filter
          (fun c => c.isOn && c.pitch == p)).length = 1
        ∧ ((VirtualOrgan.play_element 120 (.chord [60, 64, 67] none 1) 0 0).1.filter
          (fun c => !c.isOn && c.pitch == p)).length = 1 :=
  c4_chord_all_voices [60, 64, 67] none 1 120 0 0 (by decide)

/-- Helper: the loop's `current_offset` accumulates
`duration × seconds_per_quarter` over exactly the elements it dispatches. -/
theorem organ_loop_off_eq (bpm : ℚ) (l : List M21Element) (wall off : ℚ) :
    (VirtualOrgan.organ_loop bpm l wall off).2.2
      = off + VirtualOrgan.seconds_per_quarter bpm
          * (l.map M21Element.quarterLength).sum := by
  induction l generalizing wall off with
  | nil => simp [VirtualOrgan.organ_loop]
  | cons el rest ih =>
    show (VirtualOrgan.organ_loop bpm rest
        (VirtualOrgan.play_element bpm el off wall).2
        (off + el.quarterLength * VirtualOrgan.seconds_per_quarter bpm)).2.2 = _
    rw [ih]
    simp only [List.map_cons, List.sum_cons]
    ring

/-- Helper: the filtered duration sum over a longer prefix is at least the
one over a shorter prefix, when all durations are non-negative. -/
theorem filtered_dur_sum_take_le (flat : List M21Element)
    (hd : ∀ el ∈ flat, 0 ≤ el.quarterLength) (n : ℕ) :
    (((flat.take n).filter M21Element.isNoteOrChord).map
        M21Element.quarterLength).sum
      ≤ (((flat.take (n + 1)).filter M21Element.isNoteOrChord).map
          M21Element.quarterLength).sum := by
  have hsub : List.Sublist
      (((flat.take n).filter M21Element.isNoteOrChord).map
        M21Element.quarterLength)
      (((flat.take (n + 1)).filter M21Element.isNoteOrChord).map
        M21Element.quarterLength) :=
    (((List.take_prefix_take_left flat (Nat.le_succ n)).sublist).filter
      M21Element.isNoteOrChord).map M21Element.quarterLength
  refine hsub.sum_le_sum ?_
  intro a ha
  rcases List.mem_map.mp ha with ⟨el, hel, rfl⟩
  exact hd el (List.mem_of_mem_take (List.mem_of_mem_filter hel))

/-- C6 counterexample: on the one-element score `[Rest 2.0]` at 120 BPM the
claimed invariant demands a clock of 2.0 × 0.5 = 1.0 after the first event,
but the loop filters the rest away and the clock stays 0. -/
theorem c6_rest_breaks_invariant_counterexample :
    VirtualOrgan.clock_after 120 [.rest 2] 1 = 0
    ∧ (0 : ℚ) ≠ VirtualOrgan.seconds_per_quarter 120
        * (([M21Element.rest 2].take 1).map M21Element.quarterLength).sum := by
  refine ⟨rfl, ?_⟩
  norm_num [VirtualOrgan.seconds_per_quarter, M21Element.quarterLength]

/-- C6 amended: at every point of a run the clock equals
seconds-per-quarter times the summed quarter-lengths of the previously
dispatched Note and Chord events — rests are never dispatched and
contribute nothing — and with non-negative durations and BPM the clock is
monotonically non-decreasing. -/
theorem c6_clock_invariant (bpm : ℚ) (flat : List M21Element) (n : ℕ)
    (hd : ∀ el ∈ flat, 0 ≤ el.quarterLength) (hb : 0 ≤ bpm) :
    VirtualOrgan.clock_after bpm flat n
      = VirtualOrgan.seconds_per_quarter bpm
          * (((flat.take n).filter M21Element.isNoteOrChord).map
              M21Element.quarterLength).sum
    ∧ VirtualOrgan.clock_after bpm flat n
        ≤ VirtualOrgan.clock_after bpm flat (n + 1) := by
  have hspq : 0 ≤ VirtualOrgan.seconds_per_quarter bpm :=
    div_nonneg (by norm_num) hb
  have heq : ∀ m : ℕ, VirtualOrgan.clock_after bpm flat m
      = VirtualOrgan.seconds_per_quarter bpm
          * (((flat.take m).filter M21Element.isNoteOrChord).map
              M21Element.quarterLength).sum := by
    intro m
    show (VirtualOrgan.organ_loop bpm ((flat.take m).filter M21Element.isNoteOrChord)
        0 0).2.2 = _
    rw [organ_loop_off_eq, zero_add]
  refine ⟨heq n, ?_⟩
  rw [heq n, heq (n + 1)]
  exact mul_le_mul_of_nonneg_left (filtered_dur_sum_take_le flat hd n) hspq

/-- C6 witness: the invariant and monotonicity at the concrete score
`[Note 60 (1.0), Rest 1.0]`, 120 BPM, after one event. -/
theorem c6_clock_invariant_witness :
    VirtualOrgan.clock_after 120 [.note 60 none 1, .rest 1] 1
      = VirtualOrgan.seconds_per_quarter 120
          * ((([M21Element.note 60 none 1, .rest 1].take 1).filter
              M21Element.isNoteOrChord).map M21Element.quarterLength).sum
    ∧ VirtualOrgan.clock_after 120 [.note 60 none 1, .rest 1] 1
        ≤ VirtualOrgan.clock_after 120 [.note 60 none 1, .rest 1] (1 + 1) :=
  c6_clock_invariant 120 [.note 60 none 1, .rest 1] 1
    (by
      intro el h
      simp only [List.mem_cons, List.not_mem_nil, or_false] at h
      rcases h with rfl | rfl <;> norm_num [M21Element.quarterLength])
    (by norm_num)

/-- C7: the end-to-end run on `[Note(60, 1.0), Rest(1.0), Chord([64, 67],
1.0)]` at 120 BPM.  The full backend trace: note-on 60 at 0.0 s, note-off
60 at 0.5 s, note-ons 64 and 67 at 1.0 s, note-offs 64 and 67 at 1.5 s;
total sleep 1.5 s; final clock 1.0.  Hence 3 note-ons and 3 note-offs
(1 pair for the Note, none for the Rest, 2 pairs for the Chord), the Note
sounding from 0.0 s, silence — the rest boundary — from 0.5 s, and the
Chord sounding from 1.0 s. -/
theorem c7_end_to_end :
    VirtualOrgan.virtual_playback 120
        [.note 60 none 1, .rest 1, .chord [64, 67] none 1]
      = ([.noteon 0 60 127 0, .noteoff 0 60 (1/2),
          .noteon 0 64 127 1, .noteon 0 67 127 1,
          .noteoff 0 64 (3/2), .noteoff 0 67 (3/2)], 3/2, 1)
    ∧ ((VirtualOrgan.virtual_playback 120
          [.note 60 none 1, .rest 1, .chord [64, 67] none 1]).1.filter
        VirtualOrgan.FSCall.isOn).length = 3
    ∧ ((VirtualOrgan.virtual_playback 120
          [.note 60 none 1, .rest 1, .chord [64, 67] none 1]).1.filter
        (fun c => !c.isOn)).length = 3 := by
  have h : VirtualOrgan.virtual_playback 120
        [.note 60 none 1, .rest 1, .chord [64, 67] none 1]
      = ([.noteon 0 60 127 0, .noteoff 0 60 (1/2),
          .noteon 0 64 127 1, .noteon 0 67 127 1,
          .noteoff 0 64 (3/2), .noteoff 0 67 (3/2)], 3/2, 1) := by
    norm_num [VirtualOrgan.virtual_playback, VirtualOrgan.organ_loop,
      VirtualOrgan.play_element, VirtualOrgan.seconds_per_quarter,
      M21Element.quarterLength, M21Element.isNoteOrChord, List.filter]
  refine ⟨h, ?_, ?_⟩ <;> rw [h] <;> rfl

/-- Helper: `safe_sleep` always leaves the wall clock at least `MIN_DELAY`
past the recorded previous request time. -/
theorem safe_sleep_ge (last now : ℚ) :
    last + Scraper.MIN_DELAY ≤ Scraper.safe_sleep last now := by
  unfold Scraper.safe_sleep
  split
  · linarith
  · linarith [not_lt.mp (by assumption : ¬ now - last < Scraper.MIN_DELAY)]

/-- Helper: page-fetch start times of a loop run are spaced by at least
`MIN_DELAY`, and the first one is at least `MIN_DELAY` past `last`. -/
theorem hymn_loop_page_spacing (steps : List Scraper.HymnStep) :
    ∀ now last : ℚ,
      List.Chain' (fun a b => a + Scraper.MIN_DELAY ≤ b)
        (Scraper.page_starts_of (Scraper.hymn_loop steps now last))
      ∧ ∀ x ∈ (Scraper.page_starts_of (Scraper.hymn_loop steps now last)).head?,
          last + Scraper.MIN_DELAY ≤ x := by
  induction steps with
  | nil =>
    intro now last
    exact ⟨List.chain'_nil, by simp [Scraper.hymn_loop, Scraper.page_starts_of]⟩
  | cons s rest ih =>
    intro now last
    have hstep : Scraper.page_starts_of (Scraper.hymn_loop (s :: rest) now last)
        = Scraper.safe_sleep last now
          :: Scraper.page_starts_of (Scraper.hymn_loop rest
              (if s.hasPdf
                then Scraper.safe_sleep last now + s.pageDur + s.pdfDur
                else Scraper.safe_sleep last now + s.pageDur)
              (Scraper.safe_sleep last now)) := by
      show Scraper.page_starts_of
          (if s.hasPdf then _ :: _ :: Scraper.hymn_loop rest _ _
           else _ :: Scraper.hymn_loop rest _ _) = _
      by_cases hpdf : s.hasPdf
      · simp [hpdf, Scraper.page_starts_of, List.filterMap_cons]
      · simp [hpdf, Scraper.page_starts_of, List.filterMap_cons]
    rw [hstep]
    set tail := Scraper.page_starts_of (Scraper.hymn_loop rest
        (if s.hasPdf
          then Scraper.safe_sleep last now + s.pageDur + s.pdfDur
          else Scraper.safe_sleep last now + s.pageDur)
        (Scraper.safe_sleep last now)) with htail
    have hih := ih (if s.hasPdf
        then Scraper.safe_sleep last now + s.pageDur + s.pdfDur
        else Scraper.safe_sleep last now + s.pageDur)
      (Scraper.safe_sleep last now)
    constructor
    · rw [List.chain'_cons']
      exact ⟨fun y hy => hih.2 y hy, hih.1⟩
    · intro x hx
      simp only [List.head?_cons, Option.mem_def, Option.some.injEq] at hx
      rw [← hx]
      exact safe_sleep_ge last now

/-- C9 counterexample: one hymn whose page fetch takes no measurable time
and has a PDF link.  The run issues the page request at t = 0 and the PDF
request also at t = 0: consecutive requests are not spaced by `MIN_DELAY`,
because no `safe_sleep` stands between a page fetch and the PDF download it
triggers. -/
theorem c9_pdf_request_unspaced_counterexample :
    Scraper.scraper_requests 0 [⟨0, true, 0⟩] = [(true, 0), (false, 0)]
    ∧ ¬ List.Chain' (fun a b : Bool × ℚ => a.2 + Scraper.MIN_DELAY ≤ b.2)
        (Scraper.scraper_requests 0 [⟨0, true, 0⟩]) := by
  have h : Scraper.scraper_requests 0 [⟨0, true, 0⟩] = [(true, 0), (false, 0)] := by
    norm_num [Scraper.scraper_requests, Scraper.hymn_loop, Scraper.safe_sleep,
      Scraper.MIN_DELAY]
  refine ⟨h, ?_⟩
  rw [h]
  intro hc
  have := (List.chain'_cons.mp hc).1
  norm_num [Scraper.MIN_DELAY] at this

/-- C9 amended: consecutive score-page fetches are spaced by at least
`MIN_DELAY = 1.5` s — each iteration's `safe_sleep` measures from the
previous iteration's `last_request_time`, recorded at its page-fetch start
— for every hymn list, fetch durations and PDF outcomes. -/
theorem c9_page_fetch_spacing (t0 : ℚ) (steps : List Scraper.HymnStep) :
    List.Chain' (fun a b => a + Scraper.MIN_DELAY ≤ b)
      (Scraper.page_starts t0 steps) :=
  (hymn_loop_page_spacing steps t0 (t0 - Scraper.MIN_DELAY)).1

end LMT
